import Mathlib

/-!
Shallow embedding of the QTrack persistence layer (`src/QTRACK/database.js`,
class `DatabaseManager`) together with a model of the IndexedDB host calls the
class performs.  JavaScript records are modelled as ordered association lists
from field names to `JSValue`s (an absent field is `none`, mirroring
`undefined`), machine state is passed explicitly, and every fallible operation
returns `Except JsError`.  All definitions are executable.
-/

namespace QTrack

/-- Values of the JavaScript fragment the persistence layer manipulates:
strings, numbers (all numbers used by the layer are integers), booleans and
`null`.  An absent object property (`undefined`) is modelled by `Option`. -/
inductive JSValue where
  | vStr (s : String)
  | vNum (n : Int)
  | vBool (b : Bool)
  | vNull
  deriving DecidableEq, Repr

/-- A JavaScript record (plain object): an ordered association list from
property names to values.  Literal objects in the source never repeat a key. -/
def Rec : Type := List (String × JSValue)

instance : DecidableEq Rec := inferInstanceAs (DecidableEq (List (String × JSValue)))

instance : Repr Rec := inferInstanceAs (Repr (List (String × JSValue)))

/-- Property read `data[name]`: `none` models `undefined` (property absent). -/
def getField (r : Rec) (name : String) : Option JSValue :=
  match r with
  | [] => none
  | (k, v) :: rest => if k = name then some v else getField rest name

/-- Property write `obj[name] = v`: overwrites the first occurrence in place,
appends when the property was absent (JavaScript objects hold one slot per
key). -/
def setField (r : Rec) (name : String) (v : JSValue) : Rec :=
  match r with
  | [] => [(name, v)]
  | (k, w) :: rest => if k = name then (k, v) :: rest else (k, w) :: setField rest name v

/-- JavaScript truthiness of a property value, as tested by
`if (user.password)` (database.js line 255).  `undefined`, `null`, `""`, `0`
and `false` are falsy. -/
def truthy (v : Option JSValue) : Bool :=
  match v with
  | none => false
  | some .vNull => false
  | some (.vStr s) => !(s = "")
  | some (.vNum n) => !(n = 0)
  | some (.vBool b) => b

/-- JavaScript `String(v)` coercion for the values of `JSValue` (used by
`emailRegex.test(value)`, which coerces its argument to a string, and by
`TextEncoder.encode`). -/
def jsToString (v : JSValue) : String :=
  match v with
  | .vStr s => s
  | .vNum n => toString n
  | .vBool b => if b then "true" else "false"
  | .vNull => "null"

/-- Errors thrown by the layer: plain `new Error(msg)`, JavaScript
`TypeError`s, and DOMExceptions of the IndexedDB host identified by name
(for example "DataError", "ConstraintError", "NotFoundError"). -/
inductive JsError where
  | jsError (msg : String)
  | jsTypeError (msg : String)
  | domError (name : String)
  deriving DecidableEq, Repr

instance {ε α : Type} [DecidableEq ε] [DecidableEq α] : DecidableEq (Except ε α) := fun x y =>
  match x, y with
  | .ok a, .ok b =>
    if h : a = b then isTrue (by rw [h]) else isFalse (by intro hc; cases hc; exact h rfl)
  | .error e, .error f =>
    if h : e = f then isTrue (by rw [h]) else isFalse (by intro hc; cases hc; exact h rfl)
  | .ok _, .error _ => isFalse (by intro hc; cases hc)
  | .error _, .ok _ => isFalse (by intro hc; cases hc)

/-! ## The email regular expression

`validateData` tests email columns with `/^[^\s@]+@[^\s@]+\.[^\s@]+$/`
(database.js line 194).  We embed the regex as an executable matcher of its
language: a nonempty run of characters that are neither whitespace nor `@`,
then `@`, then such a run, then `.`, then such a run. -/

/-- The JavaScript `\s` class restricted to the ASCII whitespace characters
(the source data never contains the additional Unicode space characters
`\s` also matches). -/
def isJsSpace (c : Char) : Bool :=
  c = ' ' || c = '\t' || c = '\n' || c = '\r' || c = '\x0b' || c = '\x0c'

/-- A character admitted by the regex class `[^\s@]`. -/
def okEmailChar (c : Char) : Bool := !(isJsSpace c) && !(c = '@')

/-- Does the list split as `b ++ '.' :: c` with `c` nonempty?  Used for the
`\.[^\s@]+$` tail of the email regex. -/
def dotSplitTail (l : List Char) : Bool :=
  match l with
  | [] => false
  | c :: rest => (c = '.' && !rest.isEmpty) || dotSplitTail rest

/-- Executable matcher for `/^[^\s@]+@[^\s@]+\.[^\s@]+$/` as a language:
the part before the first `@` is the `[^\s@]+` prefix, the rest must split as
`[^\s@]+ '.' [^\s@]+`. -/
def emailRegexTest (s : String) : Bool :=
  let l := s.toList
  let a := l.takeWhile (fun c => !(c = '@'))
  match l.dropWhile (fun c => !(c = '@')) with
  | [] => false
  | _ :: t =>
    !a.isEmpty && a.all okEmailChar &&
    (match t with
     | [] => false
     | _ :: rest => t.all okEmailChar && dotSplitTail rest)

/-! ## Validation engine (`validateData`, database.js lines 169-216) -/

/-- One entry of the inline column lists passed to `validateData` by the CRUD
operations (for example database.js lines 247-252).  The `gravite` entry at
line 294 has `validation: "enum"` but carries no `options`, hence the
`Option` type of `options`. -/
structure ColumnRule where
  name : String
  required : Bool := false
  validation : String
  options : Option (List String) := none
  deriving DecidableEq, Repr

/-- Is the value absent, `null`, or the empty string (the required-field test
at database.js line 176)? -/
def isMissing (v : Option JSValue) : Bool :=
  match v with
  | none => true
  | some .vNull => true
  | some (.vStr s) => s = ""
  | some _ => false

/-- Modelled from the spec: the host `Date.parse` validity test used by the
`"timestamp"` branch of `validateData` (database.js line 205).  No inline
schema passed to `validateData` by `addUser`, `addNonConformite` or
`addActionCorrective` contains a `"timestamp"` column, so no theorem below
depends on this model; it accepts strings containing a digit, roughly the
shape of the date strings the application produces. -/
def dateParseValid (v : JSValue) : Bool :=
  match v with
  | .vStr s => s.toList.any Char.isDigit
  | _ => false

/-- The type-check part of the `switch (column.validation)` at database.js
lines 182-209, run only when the value is neither `undefined` nor `null`.
Returns the error messages this column contributes, or crashes with a
`TypeError` when an enum column has no `options`
(`column.options.includes(value)` on `undefined`). -/
def typeCheckErrors (col : ColumnRule) (v : JSValue) : Except JsError (List String) :=
  match col.validation with
  | "string" =>
    match v with
    | .vStr _ => .ok []
    | _ => .ok [col.name ++ " doit être une chaîne de caractères"]
  | "number" =>
    match v with
    | .vNum _ => .ok []
    | _ => .ok [col.name ++ " doit être un nombre"]
  | "email" =>
    if emailRegexTest (jsToString v) then .ok []
    else .ok [col.name ++ " n\x27est pas un email valide"]
  | "enum" =>
    match col.options with
    | none => .error (.jsTypeError "Cannot read properties of undefined (reading includes)")
    | some opts =>
      if opts.contains (jsToString v) && (match v with | .vStr _ => true | _ => false) then .ok []
      else .ok [col.name ++ " doit être l\x27une des valeurs: " ++ String.intercalate ", " opts]
  | "timestamp" =>
    if dateParseValid v then .ok []
    else .ok [col.name ++ " doit être une date valide"]
  | _ => .ok []

/-- All error messages one column contributes: the required-field message
(line 176-178) followed by the type-check messages (lines 181-210). -/
def columnErrors (data : Rec) (col : ColumnRule) : Except JsError (List String) :=
  let value := getField data col.name
  let reqErrs := if col.required && isMissing value then [col.name ++ " est requis"] else []
  match value with
  | none => .ok reqErrs
  | some .vNull => .ok reqErrs
  | some v =>
    match typeCheckErrors col v with
    | .error e => .error e
    | .ok tes => .ok (reqErrs ++ tes)

/-- The `schema.forEach` loop of `validateData`: concatenates every column's
messages; a `TypeError` thrown inside the loop aborts it immediately. -/
def validateColumns (data : Rec) (schema : List ColumnRule) : Except JsError (List String) :=
  match schema with
  | [] => .ok []
  | col :: rest =>
    match columnErrors data col with
    | .error e => .error e
    | .ok es =>
      match validateColumns data rest with
      | .error e => .error e
      | .ok rs => .ok (es ++ rs)

/-- Function `validateData(data, schema)` (database.js lines 169-216): collects every
column's violations and, when any exist, throws one aggregated
`Error("Validation échouée: ...")` joining all messages. -/
def validateData (data : Rec) (schema : List ColumnRule) : Except JsError Unit :=
  match validateColumns data schema with
  | .error e => .error e
  | .ok [] => .ok ()
  | .ok errs => .error (.jsError ("Validation échouée: " ++ String.intercalate ", " errs))

/-- The inline schema `addUser` passes to `validateData`
(database.js lines 247-252). -/
def usersInlineSchema : List ColumnRule :=
  [ { name := "username", required := true, validation := "string" },
    { name := "password", required := true, validation := "string" },
    { name := "role", required := false, validation := "string" },
    { name := "email", required := false, validation := "email" } ]

/-- The inline schema `addNonConformite` passes to `validateData`
(database.js lines 291-297).  Note the `gravite` entry declares
`validation: "enum"` without any `options`. -/
def ncInlineSchema : List ColumnRule :=
  [ { name := "type_defaut", required := true, validation := "string" },
    { name := "poste", required := true, validation := "string" },
    { name := "gravite", required := true, validation := "enum" },
    { name := "description", required := true, validation := "string" },
    { name := "id_declarant", required := true, validation := "number" } ]

/-- The inline schema `addActionCorrective` passes to `validateData`
(database.js lines 330-335). -/
def actionsInlineSchema : List ColumnRule :=
  [ { name := "description", required := true, validation := "string" },
    { name := "responsable", required := true, validation := "string" },
    { name := "delai", required := true, validation := "number" },
    { name := "id_nc", required := true, validation := "number" } ]

/-! ## IndexedDB host model

The parts of the IndexedDB contract exercised by `DatabaseManager`: object
stores with in-line keys (`keyPath`), an optional key generator
(`autoIncrement`), secondary indexes with a uniqueness flag, `add`, `index
get`, `getAll`, and `IDBDatabase.transaction` with its argument checks. -/

/-- A secondary index: its name, its key path, and its uniqueness flag
(the extra `options`/`encrypt` entries the source puts in the `createIndex`
options object are not part of the IndexedDB contract and are ignored by the
host). -/
structure IDBIndex where
  name : String
  keyPath : String
  unique : Bool
  deriving DecidableEq, Repr

/-- An object store with in-line keys.  `nextKey` is the key generator state
(generators start at 1); it is only consulted when `autoIncrement` is true.
`records` is kept in insertion order, which coincides with ascending key
order for store-generated keys. -/
structure IDBStore where
  name : String
  keyPath : String
  autoIncrement : Bool
  nextKey : Nat
  indexes : List IDBIndex
  records : List Rec
  deriving DecidableEq, Repr

/-- An open IndexedDB database connection. -/
structure IDB where
  name : String
  version : Nat
  stores : List IDBStore
  deriving DecidableEq, Repr

/-- Transaction modes of `IDBDatabase.transaction`. -/
inductive TxMode where
  | readonly
  | readwrite
  | versionchange
  deriving DecidableEq, Repr

/-- Is the value usable as an IndexedDB key (only numbers and strings occur
here; booleans and `null` are not valid keys)? -/
def isValidKey (v : JSValue) : Bool :=
  match v with
  | .vNum _ => true
  | .vStr _ => true
  | _ => false

/-- Would adding a record whose index value is `some v` on a unique index
conflict with an existing record?  A record contributes to an index only when
it has a valid key at the index's key path. -/
def uniqueIndexConflict (st : IDBStore) (idx : IDBIndex) (r : Rec) : Bool :=
  match getField r idx.keyPath with
  | none => false
  | some v =>
    isValidKey v &&
    st.records.any (fun q => decide (getField q idx.keyPath = some v))

/-- Model of `store.add(record)` for a store with in-line keys, per the IndexedDB
specification: a record without a key is completed from the key generator
when the store has one and rejected with `DataError` otherwise; an invalid
supplied key is a `DataError`; a duplicate primary key or a violated unique
index is a `ConstraintError`; a supplied numeric key at or above the
generator bumps the generator.  Returns the key of the stored record and the
updated store. -/
def storeAdd (st : IDBStore) (r : Rec) : Except JsError (JSValue × IDBStore) :=
  match getField r st.keyPath with
  | none =>
    if st.autoIncrement then
      let k : JSValue := .vNum st.nextKey
      let r' := setField r st.keyPath k
      if st.records.any (fun q => decide (getField q st.keyPath = some k)) then
        .error (.domError "ConstraintError")
      else if st.indexes.any (fun idx => idx.unique && uniqueIndexConflict st idx r') then
        .error (.domError "ConstraintError")
      else
        .ok (k, { st with records := st.records ++ [r'], nextKey := st.nextKey + 1 })
    else
      .error (.domError "DataError")
  | some k =>
    if isValidKey k then
      if st.records.any (fun q => decide (getField q st.keyPath = some k)) then
        .error (.domError "ConstraintError")
      else if st.indexes.any (fun idx => idx.unique && uniqueIndexConflict st idx r) then
        .error (.domError "ConstraintError")
      else
        let next :=
          match k with
          | .vNum n => if st.autoIncrement && n ≥ st.nextKey then n.toNat + 1 else st.nextKey
          | _ => st.nextKey
        .ok (k, { st with records := st.records ++ [r], nextKey := next })
    else
      .error (.domError "DataError")

/-- Look an object store up by name on an open connection. -/
def findStore (db : IDB) (name : String) : Option IDBStore :=
  db.stores.find? (fun st => st.name = name)

/-- Replace a store (by name) in the connection after a write. -/
def putStore (db : IDB) (st : IDBStore) : IDB :=
  { db with stores := db.stores.map (fun q => if q.name = st.name then st else q) }

/-- The argument checks of `IDBDatabase.transaction(storeNames, mode)`: a
name outside the connection's object stores is a `NotFoundError`; the
`versionchange` mode is not accepted (a `TypeError`).  The source calls this
with `"versionchange"` at database.js line 126. -/
def transactionCheck (db : IDB) (storeNames : List String) (mode : TxMode) :
    Except JsError Unit :=
  if storeNames.any (fun n => !(db.stores.any (fun st => st.name = n))) then
    .error (.domError "NotFoundError")
  else if mode = .versionchange then
    .error (.jsTypeError "transaction mode versionchange is not allowed")
  else
    .ok ()

/-! ## The declared schema (`createTables`, database.js lines 83-161) -/

/-- One entry of a `columns` array in the `tables` data of `createTables`
(database.js lines 88-123). -/
structure ColumnDef where
  name : String
  key : Bool := false
  autoIncrement : Bool := false
  unique : Bool := false
  encrypted : Bool := false
  default : Option String := none
  options : Option (List String) := none
  validation : Option String := none
  deriving DecidableEq, Repr

/-- One entry of the `tables` array. -/
structure TableDef where
  name : String
  columns : List ColumnDef
  deriving DecidableEq, Repr

/-- The `users` table declaration (database.js lines 89-98). -/
def usersTableDef : TableDef :=
  { name := "users",
    columns :=
      [ { name := "id", key := true, autoIncrement := true },
        { name := "username", unique := true, validation := some "string" },
        { name := "password", encrypted := true, validation := some "string" },
        { name := "role", default := some "utilisateur", validation := some "string" },
        { name := "email", validation := some "email" } ] }

/-- The `non_conformites` table declaration (database.js lines 99-111). -/
def ncTableDef : TableDef :=
  { name := "non_conformites",
    columns :=
      [ { name := "id", key := true, autoIncrement := true },
        { name := "type_defaut", validation := some "string" },
        { name := "poste", validation := some "string" },
        { name := "gravite", options := some ["Mineure", "Majeure", "Critique"],
          validation := some "enum" },
        { name := "description", validation := some "string" },
        { name := "statut", default := some "Ouvert", validation := some "string" },
        { name := "date_creation", default := some "CURRENT_TIMESTAMP",
          validation := some "timestamp" },
        { name := "id_declarant", validation := some "number" } ] }

/-- The `actions_correctives` table declaration (database.js lines 112-122). -/
def actionsTableDef : TableDef :=
  { name := "actions_correctives",
    columns :=
      [ { name := "id", key := true, autoIncrement := true },
        { name := "description", validation := some "string" },
        { name := "responsable", validation := some "string" },
        { name := "delai", validation := some "number" },
        { name := "statut", default := some "Non démarré", validation := some "string" },
        { name := "id_nc", validation := some "number" } ] }

/-- The `tables` array of `createTables`. -/
def tables : List TableDef := [usersTableDef, ncTableDef, actionsTableDef]

/-- The store the `tables.forEach` body of `createTables` (database.js lines
128-147) would create for a table: `createObjectStore(table.name,
{ keyPath: "id" })` — note the options carry no `autoIncrement`, so the store
has no key generator — followed by `createIndex(column.name, column.name,
{ unique: column.unique || false, ... })` for every non-key column.  The loop
body can only execute inside an upgrade transaction; it is modelled here as
the store it would produce. -/
def storeCreatedFromTableDef (t : TableDef) : IDBStore :=
  { name := t.name,
    keyPath := "id",
    autoIncrement := false,
    nextKey := 1,
    indexes :=
      (t.columns.filter (fun c => !c.key)).map
        (fun c => { name := c.name, keyPath := c.name, unique := c.unique }),
    records := [] }

/-- Function `createTables` (database.js lines 83-161) on an open connection: its
first statement opens `this.db.transaction([...], "versionchange")` (line
126), which the host rejects for every connection state — `NotFoundError`
when the stores do not exist yet, otherwise a `TypeError` for the
`versionchange` mode — so the `tables.forEach` body (modelled by
`storeCreatedFromTableDef`) is unreachable and `createTables` always
rethrows the error from its `catch`. -/
def createTables (db : IDB) : Except JsError Unit :=
  match transactionCheck db ["users", "non_conformites", "actions_correctives"]
      .versionchange with
  | .error e => .error e
  | .ok _ => .ok ()

/-! ## DatabaseManager state and transaction orchestration -/

/-- The mutable fields of a `DatabaseManager` instance, together with the
host-side persisted database (`disk`) and a counter of `initDatabase`
invocations (`openCalls`, used to observe whether an implicit open was
attempted). -/
structure DBMState where
  db : Option IDB
  dbVersion : Nat
  dbName : String
  initializationPromise : Bool
  disk : IDB
  openCalls : Nat
  deriving DecidableEq, Repr

/-- Function `initDatabase` (database.js lines 27-75): opens the persisted database
(setting `this.db` and `this.initializationPromise`), then awaits
`this.createTables()` (line 69), which always throws (see `createTables`),
so the rejection propagates out of `initDatabase`. -/
def initDatabase (st : DBMState) : Except JsError Unit × DBMState :=
  let st' := { st with db := some st.disk, initializationPromise := true,
                       openCalls := st.openCalls + 1 }
  match createTables st.disk with
  | .error e => (.error e, st')
  | .ok _ => (.ok (), st')

/-- Function `executeTransaction(storeNames, mode, operation)` (database.js lines
224-241).  The guards run in source order: a missing `this.db` throws the
bare "Base de données non initialisée" error first (lines 225-227); only
then is a missing `initializationPromise` handled by awaiting
`initDatabase` (lines 229-231, outside the `try`).  Inside the `try`, the
host transaction checks run, the operation executes, and a failure aborts
the transaction (no partial write: the connection state is left as it was). -/
def executeTransaction {α : Type} (st : DBMState) (storeNames : List String)
    (mode : TxMode) (op : IDB → Except JsError (α × IDB)) :
    Except JsError α × DBMState :=
  match st.db with
  | none => (.error (.jsError "Base de données non initialisée"), st)
  | some db =>
    match (if st.initializationPromise then (.ok (), st) else initDatabase st) with
    | (.error e, st') => (.error e, st')
    | (.ok _, st') =>
      let db' := st'.db.getD db
      match transactionCheck db' storeNames mode with
      | .error e => (.error e, st')
      | .ok _ =>
        match op db' with
        | .error e => (.error e, st')
        | .ok (a, db2) => (.ok a, { st' with db := some db2 })

/-! ## Credential hashing (`hashPassword`, database.js lines 358-365)

`hashPassword` UTF-8-encodes the password, digests it with the host's
SHA-256 primitive (`crypto.subtle.digest`), and renders each digest byte as
two lowercase hex characters (`b.toString(16).padStart(2, '0')`).  The
SHA-256 primitive is implemented here in full (FIPS 180-4) so the function
is executable. -/

/-- UTF-8 encoding of one character (what `TextEncoder.encode` produces). -/
def utf8EncodeChar (c : Char) : List Nat :=
  let n := c.toNat
  if n < 128 then [n]
  else if n < 2048 then
    [192 + n / 64, 128 + n % 64]
  else if n < 65536 then
    [224 + n / 4096, 128 + (n / 64) % 64, 128 + n % 64]
  else
    [240 + n / 262144, 128 + (n / 4096) % 64, 128 + (n / 64) % 64, 128 + n % 64]

/-- UTF-8 encoding of a string as a byte list. -/
def utf8Encode (s : String) : List Nat :=
  (s.toList.map utf8EncodeChar).flatten

/-- Addition modulo 2^32. -/
def add32 (a b : Nat) : Nat := (a + b) % 4294967296

/-- Right rotation of a 32-bit word. -/
def rotr32 (n w : Nat) : Nat :=
  ((w >>> n) ||| (w <<< (32 - n))) % 4294967296

/-- The eight SHA-256 initial hash values. -/
structure Hash8 where
  a : Nat
  b : Nat
  c : Nat
  d : Nat
  e : Nat
  f : Nat
  g : Nat
  h : Nat
  deriving DecidableEq, Repr

/-- SHA-256 initial state (FIPS 180-4 section 5.3.3), in decimal. -/
def sha256Init : Hash8 :=
  { a := 1779033703, b := 3144134277, c := 1013904242, d := 2773480762,
    e := 1359893119, f := 2600822924, g := 528734635, h := 1541459225 }

/-- SHA-256 round constants (FIPS 180-4 section 4.2.2), in decimal. -/
def sha256K : List Nat :=
  [1116352408, 1899447441, 3049323471, 3921009573, 961987163,
   1508970993, 2453635748, 2870763221, 3624381080, 310598401,
   607225278, 1426881987, 1925078388, 2162078206, 2614888103,
   3248222580, 3835390401, 4022224774, 264347078, 604807628,
   770255983, 1249150122, 1555081692, 1996064986, 2554220882,
   2821834349, 2952996808, 3210313671, 3336571891, 3584528711,
   113926993, 338241895, 666307205, 773529912, 1294757372,
   1396182291, 1695183700, 1986661051, 2177026350, 2456956037,
   2730485921, 2820302411, 3259730800, 3345764771, 3516065817,
   3600352804, 4094571909, 275423344, 430227734, 506948616,
   659060556, 883997877, 958139571, 1322822218, 1537002063,
   1747873779, 1955562222, 2024104815, 2227730452, 2361852424,
   2428436474, 2756734187, 3204031479, 3329325298]

/-- Append one word to the message schedule (FIPS 180-4 section 6.2.2 step 1,
for 16 ≤ t ≤ 63). -/
def scheduleStep (w : List Nat) : List Nat :=
  let i := w.length
  let w15 := w.getD (i - 15) 0
  let w2 := w.getD (i - 2) 0
  let s0 := (rotr32 7 w15) ^^^ (rotr32 18 w15) ^^^ (w15 >>> 3)
  let s1 := (rotr32 17 w2) ^^^ (rotr32 19 w2) ^^^ (w2 >>> 10)
  w ++ [add32 (add32 (w.getD (i - 16) 0) s0) (add32 (w.getD (i - 7) 0) s1)]

/-- Extend a 16-word chunk to the full 64-word schedule. -/
def buildSchedule : Nat → List Nat → List Nat
  | 0, w => w
  | n + 1, w => buildSchedule n (scheduleStep w)

/-- One SHA-256 compression round. -/
def compressRound (st : Hash8) (ki wi : Nat) : Hash8 :=
  let s1 := (rotr32 6 st.e) ^^^ (rotr32 11 st.e) ^^^ (rotr32 25 st.e)
  let ch := (st.e &&& st.f) ^^^ ((4294967295 - st.e) &&& st.g)
  let temp1 := add32 (add32 (add32 st.h s1) (add32 ch ki)) wi
  let s0 := (rotr32 2 st.a) ^^^ (rotr32 13 st.a) ^^^ (rotr32 22 st.a)
  let maj := (st.a &&& st.b) ^^^ (st.a &&& st.c) ^^^ (st.b &&& st.c)
  let temp2 := add32 s0 maj
  { a := add32 temp1 temp2, b := st.a, c := st.b, d := st.c,
    e := add32 st.d temp1, f := st.e, g := st.f, h := st.g }

/-- Big-endian packing of bytes into 32-bit words. -/
def bytesToWords : List Nat → List Nat
  | b0 :: b1 :: b2 :: b3 :: rest => (((b0 * 256 + b1) * 256 + b2) * 256 + b3) :: bytesToWords rest
  | _ => []

/-- Compress one 64-byte chunk into the running hash state. -/
def compressChunk (h0 : Hash8) (chunk : List Nat) : Hash8 :=
  let w := buildSchedule 48 (bytesToWords chunk)
  let fin := (sha256K.zip w).foldl (fun s kw => compressRound s kw.1 kw.2) h0
  { a := add32 h0.a fin.a, b := add32 h0.b fin.b, c := add32 h0.c fin.c,
    d := add32 h0.d fin.d, e := add32 h0.e fin.e, f := add32 h0.f fin.f,
    g := add32 h0.g fin.g, h := add32 h0.h fin.h }

/-- Big-endian rendering of the 64-bit message bit length. -/
def lengthBytes (bitLen : Nat) : List Nat :=
  [(bitLen >>> 56) % 256, (bitLen >>> 48) % 256, (bitLen >>> 40) % 256,
   (bitLen >>> 32) % 256, (bitLen >>> 24) % 256, (bitLen >>> 16) % 256,
   (bitLen >>> 8) % 256, bitLen % 256]

/-- SHA-256 padding: append `0x80`, zeros to 56 mod 64, and the bit length. -/
def padMessage (msg : List Nat) : List Nat :=
  let len := msg.length
  let zeros := (119 - len % 64) % 64
  msg ++ [128] ++ List.replicate zeros 0 ++ lengthBytes (len * 8)

/-- Split the padded message into 64-byte chunks. -/
def chunksOf64 : List Nat → List (List Nat)
  | [] => []
  | b :: rest => (b :: rest).take 64 :: chunksOf64 ((b :: rest).drop 64)
  termination_by l => l.length
  decreasing_by simp [List.length_drop]; omega

/-- The four big-endian bytes of a 32-bit word. -/
def wordBytes (w : Nat) : List Nat :=
  [(w >>> 24) % 256, (w >>> 16) % 256, (w >>> 8) % 256, w % 256]

/-- The 32 digest bytes of a final hash state. -/
def hash8Bytes (h : Hash8) : List Nat :=
  wordBytes h.a ++ wordBytes h.b ++ wordBytes h.c ++ wordBytes h.d ++
  wordBytes h.e ++ wordBytes h.f ++ wordBytes h.g ++ wordBytes h.h

/-- SHA-256 of a byte list, as the 32 digest bytes. -/
def sha256Bytes (msg : List Nat) : List Nat :=
  hash8Bytes ((chunksOf64 (padMessage msg)).foldl compressChunk sha256Init)

/-- The sixteen lowercase hex digits. -/
def hexChars : List Char := "0123456789abcdef".toList

/-- The lowercase hex digit of `n % 16` (what `toString(16)` produces per
nibble). -/
def hexDigit (n : Nat) : Char := hexChars.getD (n % 16) '0'

/-- Rendering `b.toString(16).padStart(2, '0')` of a digest byte `b < 256`: exactly
two lowercase hex characters. -/
def byteToHex (b : Nat) : List Char := [hexDigit (b / 16), hexDigit (b % 16)]

/-- Function `hashPassword(password)` (database.js lines 358-365): the SHA-256 digest
of the UTF-8 encoded password, rendered as a 64-character lowercase hex
string. -/
def hashPassword (password : String) : String :=
  String.mk (((sha256Bytes (utf8Encode password)).map byteToHex).flatten)

/-! ## CRUD operations (database.js lines 243-351) -/

/-- The transaction callback shared by the three `add` operations:
`transaction.objectStore(name)` followed by `store.add(record)` and the
promise around `request.onsuccess`/`onerror`. -/
def addOp (storeName : String) (r : Rec) (db : IDB) : Except JsError (JSValue × IDB) :=
  match findStore db storeName with
  | none => .error (.domError "NotFoundError")
  | some store =>
    match storeAdd store r with
    | .error e => .error e
    | .ok (k, store') => .ok (k, putStore db store')

/-- Function `addUser(user)` (database.js lines 244-273): validates against the inline
users schema, then — because validation passed, `user.password` is a
nonempty string, hence truthy — overwrites `user.password` in place with
`hashPassword(user.password)` (lines 255-257), and only then runs the
readwrite transaction.  The third component of the result is the caller's
`user` object as it stands after the call (the in-place mutation). -/
def addUser (st : DBMState) (user : Rec) : Except JsError JSValue × DBMState × Rec :=
  match validateData user usersInlineSchema with
  | .error e => (.error e, st, user)
  | .ok _ =>
    let user' :=
      match getField user "password" with
      | some v =>
        if truthy (some v) then
          setField user "password" (.vStr (hashPassword (jsToString v)))
        else user
      | none => user
    match executeTransaction st ["users"] .readwrite (addOp "users" user') with
    | (res, st') => (res, st', user')

/-- Function `getUser(username)` (database.js lines 275-286): a readonly transaction
on `users`, `store.index("username").get(username)`; the request resolves
with the matching record or with `undefined` (modelled `none`) when no
record matches. -/
def getUser (st : DBMState) (username : String) : Except JsError (Option Rec) × DBMState :=
  executeTransaction st ["users"] .readonly (fun db =>
    match findStore db "users" with
    | none => .error (.domError "NotFoundError")
    | some store =>
      match store.indexes.find? (fun i => i.name = "username") with
      | none => .error (.domError "NotFoundError")
      | some idx =>
        .ok (store.records.find? (fun r => decide (getField r idx.keyPath = some (.vStr username))),
             db))

/-- Function `addNonConformite(nc)` (database.js lines 289-313): validates against the
inline non-conformity schema, then inserts `nc` unchanged — no column
default from the `tables` declaration is ever consulted or applied — in a
readwrite transaction. -/
def addNonConformite (st : DBMState) (nc : Rec) : Except JsError JSValue × DBMState :=
  match validateData nc ncInlineSchema with
  | .error e => (.error e, st)
  | .ok _ => executeTransaction st ["non_conformites"] .readwrite (addOp "non_conformites" nc)

/-- Function `getNonConformites()` (database.js lines 315-325): a readonly transaction
returning `store.getAll()`, the list of all records of the store. -/
def getNonConformites (st : DBMState) : Except JsError (List Rec) × DBMState :=
  executeTransaction st ["non_conformites"] .readonly (fun db =>
    match findStore db "non_conformites" with
    | none => .error (.domError "NotFoundError")
    | some store => .ok (store.records, db))

/-- Function `addActionCorrective(action)` (database.js lines 328-351). -/
def addActionCorrective (st : DBMState) (action : Rec) : Except JsError JSValue × DBMState :=
  match validateData action actionsInlineSchema with
  | .error e => (.error e, st)
  | .ok _ =>
    executeTransaction st ["actions_correctives"] .readwrite (addOp "actions_correctives" action)

/-- Values of the object returned by `getDatabaseStatus`. -/
inductive StatusValue where
  | sBool (b : Bool)
  | sStr (s : String)
  | sNum (n : Nat)
  | sList (l : List String)
  deriving DecidableEq, Repr

/-- Function `getDatabaseStatus()` (database.js lines 409-416): returns the object
literal `{ initialized: !!this.db, dbName: this.dbName, version:
this.dbVersion, storeNames: this.db ? Array.from(this.db.objectStoreNames)
: [] }`, modelled as the ordered field list of that literal. -/
def getDatabaseStatus (st : DBMState) : List (String × StatusValue) :=
  [ ("initialized", .sBool st.db.isSome),
    ("dbName", .sStr st.dbName),
    ("version", .sNum st.dbVersion),
    ("storeNames", .sList (match st.db with
      | some d => d.stores.map (fun s => s.name)
      | none => [])) ]

/-! ## Concrete machine states used by the theorems -/

/-- The connection holding exactly the three stores the `tables.forEach` body
of `createTables` would create (see `storeCreatedFromTableDef`).  Because
`createTables` itself always throws before reaching the loop, this is the
most schema-complete connection the code can be credited with; the
operational theorems below evaluate the CRUD operations against it. -/
def readyDb : IDB :=
  { name := "QTrackDB", version := 1, stores := tables.map storeCreatedFromTableDef }

/-- A manager state whose connection is `readyDb` and whose initialization
promise is set. -/
def readyState : DBMState :=
  { db := some readyDb, dbVersion := 1, dbName := "QTrackDB",
    initializationPromise := true, disk := readyDb, openCalls := 1 }

/-- The state observable between the constructor's return and the
asynchronous completion of the open: `initDatabase` has started (its
synchronous prefix already assigned `initializationPromise`) but `this.db`
is still `null`.  `openCalls` is zeroed so that an implicit open attempted
by a later operation would be visible. -/
def preOpenState : DBMState :=
  { db := none, dbVersion := 1, dbName := "QTrackDB",
    initializationPromise := true, disk := readyDb, openCalls := 0 }

/-- The record of spec Scenario A. -/
def scenarioARecord : Rec :=
  [ ("type_defaut", .vStr "rayure"), ("poste", .vStr "P3"),
    ("gravite", .vStr "Mineure"), ("description", .vStr "surface"),
    ("id_declarant", .vNum 7) ]

/-- The record of spec Scenario B. -/
def scenarioBRecord : Rec := [("poste", .vStr "P3")]

/-- The record of spec Scenario C. -/
def aliceRecord : Rec := [("username", .vStr "alice"), ("password", .vStr "secret")]

/-! ## Helper lemmas -/

theorem getField_setField_self (r : Rec) (name : String) (v : JSValue) :
    getField (setField r name v) name = some v := by
  induction r with
  | nil => simp [setField, getField]
  | cons kv rest ih =>
    by_cases h : kv.1 = name
    · simp [setField, getField, h]
    · simp [setField, getField, h, ih]

theorem getField_setField_ne (r : Rec) (name f : String) (v : JSValue) (hf : f ≠ name) :
    getField (setField r name v) f = getField r f := by
  have hnf : ¬ name = f := fun h => hf h.symm
  induction r with
  | nil => simp [setField, getField, hnf]
  | cons kv rest ih =>
    by_cases h : kv.1 = name
    · simp [setField, getField, h, hnf]
    · by_cases h2 : kv.1 = f
      · simp [setField, getField, h, h2, hf]
      · simp [setField, getField, h, h2, ih]

theorem validateColumns_ok_each (data : Rec) (schema : List ColumnRule)
    (h : validateColumns data schema = .ok []) :
    ∀ col ∈ schema, columnErrors data col = .ok [] := by
  induction schema with
  | nil => intro col hc; simp at hc
  | cons c rest ih =>
    intro col hc
    unfold validateColumns at h
    cases hce : columnErrors data c with
    | error e => rw [hce] at h; exact absurd h (by simp)
    | ok es =>
      rw [hce] at h
      cases hcr : validateColumns data rest with
      | error e => rw [hcr] at h; exact absurd h (by simp)
      | ok rs =>
        rw [hcr] at h
        simp at h
        obtain ⟨hes, hrs⟩ := h
        rcases List.mem_cons.mp hc with hcol | hcol
        · rw [hcol, hce, hes]
        · rw [hrs] at hcr
          exact ih hcr col hcol

theorem validateData_ok_columns (data : Rec) (schema : List ColumnRule)
    (h : validateData data schema = .ok ()) :
    validateColumns data schema = .ok [] := by
  unfold validateData at h
  cases hc : validateColumns data schema with
  | error e => rw [hc] at h; exact absurd h (by simp)
  | ok es =>
    cases es with
    | nil => rfl
    | cons e es' => rw [hc] at h; exact absurd h (by simp)

/-! ## Claim C1 -/

/-- Claim C1: the spec asserts that primary keys are assigned by the store
(strictly increasing, never caller-supplied).  The code declares
`autoIncrement: true` for the `id` column in its own `tables` data, but
`createObjectStore(table.name, { keyPath: "id" })` at database.js line 130
passes no `autoIncrement` option, so the created store has no key generator.
Consequently a valid `addUser` call that (per the claim) supplies no key is
rejected by the host with `DataError` instead of receiving a store-assigned
key, and the store is left unchanged.  This contradicts the code's own
schema declaration: the claim describes the intent and the code drops the
flag, hence the claim is settled as a code bug. -/
theorem c1_store_never_assigns_keys :
    (usersTableDef.columns.find? (fun c => c.key)).map (fun c => c.autoIncrement) = some true ∧
    (storeCreatedFromTableDef usersTableDef).autoIncrement = false ∧
    validateData aliceRecord usersInlineSchema = .ok () ∧
    (addUser readyState aliceRecord).1 = .error (.domError "DataError") ∧
    (addUser readyState aliceRecord).2.1 = readyState :=
  ⟨rfl, rfl, by decide, rfl, rfl⟩

/-! ## Claim C2 -/

/-- The Scenario A record with a caller-supplied primary key, used to probe
the store layer directly (bypassing validation). -/
def scenarioAWithId : Rec := setField scenarioARecord "id" (.vNum 1)

/-- Claim C2: the spec asserts `addNonConformite` applies the declared
column default (`statut: "Ouvert"`) to a valid record omitting `statut`.
In the code, (i) the valid Scenario A record is not even validated
successfully: the inline `gravite` rule has `validation: "enum"` but no
`options`, so `column.options.includes(value)` crashes with a `TypeError`
and the add rejects with the store untouched; and (ii) no code path reads
the `default` entries of the `tables` declaration at all — inserting the
record directly at the store layer (with a key supplied, since the store
also lacks a key generator) persists it with no `statut` field.  The
declaration of the default in the code's own schema data shows the claim is
the intent; the code never implements it. -/
theorem c2_defaults_never_applied :
    (ncTableDef.columns.find? (fun c => c.name = "statut")).map (fun c => c.default) =
      some (some "Ouvert") ∧
    validateData scenarioARecord ncInlineSchema =
      .error (.jsTypeError "Cannot read properties of undefined (reading includes)") ∧
    addNonConformite readyState scenarioARecord =
      (.error (.jsTypeError "Cannot read properties of undefined (reading includes)"),
       readyState) ∧
    (storeAdd (storeCreatedFromTableDef ncTableDef) scenarioAWithId).toOption.map
        (fun p => p.1) = some (.vNum 1) ∧
    (storeAdd (storeCreatedFromTableDef ncTableDef) scenarioAWithId).toOption.map
        (fun p => p.2.records.map (fun r => getField r "statut")) = some [none] := by
  refine ⟨rfl, by decide, by decide, by decide, by decide⟩

/-! ## Claim C3 -/

/-- Counterexample to claim C3: with the handle not yet open (`this.db`
still null), an operation does not trigger an implicit open followed by a
retry — it rejects at once with the bare "Base de données non initialisée"
error, the operation callback never runs (its "ran" result is not
produced), and no open is attempted (`openCalls` stays 0, the state is
returned unchanged).  The implicit-open branch at database.js lines 229-231
is unreachable: it is only examined after the `!this.db` guard has already
thrown. -/
theorem c3_counterexample :
    executeTransaction preOpenState ["users"] .readonly
        (fun db => (.ok (JSValue.vStr "ran", db) : Except JsError (JSValue × IDB))) =
      (.error (.jsError "Base de données non initialisée"), preOpenState) ∧
    (executeTransaction preOpenState ["users"] .readonly
        (fun db => (.ok (JSValue.vStr "ran", db) : Except JsError (JSValue × IDB)))).2.openCalls
      = 0 :=
  ⟨rfl, rfl⟩

/-- Claim C3 amended: for every store operation attempted while the database
handle is not yet open, `executeTransaction` rejects immediately with the
bare not-initialized error, performing no implicit open and no retry (the
state, including the count of open attempts, is returned unchanged). -/
theorem c3_not_ready_rejects_without_open (α : Type) (st : DBMState)
    (names : List String) (mode : TxMode) (op : IDB → Except JsError (α × IDB))
    (h : st.db = none) :
    executeTransaction st names mode op =
      (.error (.jsError "Base de données non initialisée"), st) := by
  unfold executeTransaction
  rw [h]

/-- Witness for `c3_not_ready_rejects_without_open` at a concrete state and
operation. -/
theorem c3_witness :
    executeTransaction preOpenState ["non_conformites"] .readwrite
        (fun db => (.ok (JSValue.vNull, db) : Except JsError (JSValue × IDB))) =
      (.error (.jsError "Base de données non initialisée"), preOpenState) :=
  c3_not_ready_rejects_without_open JSValue preOpenState ["non_conformites"] .readwrite
    (fun db => .ok (JSValue.vNull, db)) rfl

/-! ## Claim C5 -/

/-- Claim C5: a record that fails validation makes the add reject with the
validation error before any transaction is opened and without any store
mutation: the manager state (hence the store contents) is returned
unchanged, and a subsequent list call returns exactly what it returned
before the rejected add.  Proved for all three add operations. -/
theorem c5_validation_failure_is_pure (st : DBMState) (nc user action : Rec) :
    (∀ e, validateData nc ncInlineSchema = .error e →
      addNonConformite st nc = (.error e, st) ∧
      (getNonConformites (addNonConformite st nc).2).1 = (getNonConformites st).1) ∧
    (∀ e, validateData user usersInlineSchema = .error e →
      addUser st user = (.error e, st, user)) ∧
    (∀ e, validateData action actionsInlineSchema = .error e →
      addActionCorrective st action = (.error e, st)) := by
  refine ⟨fun e h => ?_, fun e h => ?_, fun e h => ?_⟩
  · have h1 : addNonConformite st nc = (.error e, st) := by
      unfold addNonConformite; rw [h]
    exact ⟨h1, by rw [h1]⟩
  · unfold addUser; rw [h]
  · unfold addActionCorrective; rw [h]

/-- Witness for `c5_validation_failure_is_pure`: the empty record fails
validation on each schema with an aggregated error, and each add returns
that error with the state unchanged. -/
theorem c5_witness :
    (addNonConformite readyState [] =
      (.error (.jsError ("Validation échouée: type_defaut est requis, poste est requis, " ++
        "gravite est requis, description est requis, id_declarant est requis")), readyState)) ∧
    (addUser readyState [] =
      (.error (.jsError "Validation échouée: username est requis, password est requis"),
       readyState, [])) ∧
    (addActionCorrective readyState [] =
      (.error (.jsError ("Validation échouée: description est requis, responsable est requis, " ++
        "delai est requis, id_nc est requis")), readyState)) :=
  ⟨((c5_validation_failure_is_pure readyState [] [] []).1 _ (by decide)).1,
   (c5_validation_failure_is_pure readyState [] [] []).2.1 _ (by decide),
   (c5_validation_failure_is_pure readyState [] [] []).2.2 _ (by decide)⟩

/-! ## Claim C8 -/

/-- Counterexample to claim C8: the status record's fields are `initialized`,
`dbName`, `version`, `storeNames` — not the claimed `{initialized,
storeName, version, tableNames}`: neither `storeName` nor `tableNames` is a
field of the returned object. -/
theorem c8_counterexample :
    (getDatabaseStatus preOpenState).map Prod.fst =
      ["initialized", "dbName", "version", "storeNames"] ∧
    "storeName" ∉ (getDatabaseStatus preOpenState).map Prod.fst ∧
    "tableNames" ∉ (getDatabaseStatus preOpenState).map Prod.fst := by
  refine ⟨rfl, by decide, by decide⟩

/-- Claim C8 amended: the status query returns a record with exactly the
fields `{initialized, dbName, version, storeNames}`, where `initialized`
reflects whether the database handle is open and `storeNames` lists the
object stores of the open database (empty when no handle is open). -/
theorem c8_status_fields (st : DBMState) :
    (getDatabaseStatus st).map Prod.fst =
      ["initialized", "dbName", "version", "storeNames"] ∧
    (getDatabaseStatus st).lookup "initialized" = some (.sBool st.db.isSome) ∧
    (getDatabaseStatus st).lookup "dbName" = some (.sStr st.dbName) ∧
    (getDatabaseStatus st).lookup "version" = some (.sNum st.dbVersion) ∧
    (getDatabaseStatus st).lookup "storeNames" =
      some (.sList (match st.db with
        | some d => d.stores.map (fun s => s.name)
        | none => [])) :=
  ⟨rfl, rfl, rfl, rfl, rfl⟩

/-! ## Claim C6 -/

theorem length_hash8Bytes (h : Hash8) : (hash8Bytes h).length = 32 := rfl

theorem length_sha256Bytes (m : List Nat) : (sha256Bytes m).length = 32 := by
  unfold sha256Bytes
  exact length_hash8Bytes _

theorem length_flatten_byteToHex (l : List Nat) :
    ((l.map byteToHex).flatten).length = 2 * l.length := by
  induction l with
  | nil => simp
  | cons b rest ih => simp [byteToHex, ih]; omega

theorem hashPassword_length (s : String) : (hashPassword s).length = 64 := by
  show (((sha256Bytes (utf8Encode s)).map byteToHex).flatten).length = 64
  rw [length_flatten_byteToHex, length_sha256Bytes]

theorem hexDigit_mem (n : Nat) : hexDigit n ∈ hexChars := by
  unfold hexDigit
  have h : n % 16 < hexChars.length := Nat.mod_lt n (by decide)
  rw [List.getD_eq_getElem hexChars '0' h]
  exact List.getElem_mem h

theorem all_hex_byteToHex (b : Nat) :
    (byteToHex b).all (fun c => decide (c ∈ hexChars)) = true := by
  simp [byteToHex, hexDigit_mem]

theorem all_hex_flatten (l : List Nat) :
    ((l.map byteToHex).flatten).all (fun c => decide (c ∈ hexChars)) = true := by
  induction l with
  | nil => simp
  | cons b rest ih => simp [List.all_append, all_hex_byteToHex b, ih]

theorem hashPassword_all_hex (s : String) :
    (hashPassword s).toList.all (fun c => decide (c ∈ hexChars)) = true := by
  show (((sha256Bytes (utf8Encode s)).map byteToHex).flatten).all _ = true
  exact all_hex_flatten _

/-- Claim C6: the hashing contract itself holds — `hashPassword` is a pure
function of the password (so equal inputs give equal digests), always
produces a 64-character string of lowercase hex digits, and its digest of
"secret" is not "secret" — but the claimed end-to-end scenario fails on the
code: `addUser({username:"alice", password:"secret"})` is rejected by the
host with `DataError` because the `users` store was created without a key
generator (see `c1_store_never_assigns_keys`), so the subsequent
`getUser("alice")` resolves with an absent result instead of a record
carrying the digest. -/
theorem c6_hash_contract_scenario_fails :
    (∀ s t : String, s = t → hashPassword s = hashPassword t) ∧
    (∀ s : String, (hashPassword s).length = 64) ∧
    (∀ s : String, (hashPassword s).toList.all (fun c => decide (c ∈ hexChars)) = true) ∧
    hashPassword "secret" ≠ "secret" ∧
    (addUser readyState aliceRecord).1 = .error (.domError "DataError") ∧
    (getUser ((addUser readyState aliceRecord).2.1) "alice").1 = .ok none := by
  refine ⟨fun s t h => by rw [h], hashPassword_length, hashPassword_all_hex, ?_, rfl, rfl⟩
  intro h
  have h1 := hashPassword_length "secret"
  rw [h] at h1
  exact absurd h1 (by decide)

/-- Witness for `c6_hash_contract_scenario_fails`: the determinism conjunct
applied at the concrete password "secret". -/
theorem c6_witness : hashPassword "secret" = hashPassword "secret" :=
  c6_hash_contract_scenario_fails.1 "secret" "secret" rfl

/-! ## Claim C9 -/

/-- Claim C9: when no record of the `users` store matches the requested
username, `getUser` resolves with an explicit absent result (`undefined`,
modelled `none`) and the state is unchanged — absence is returned, not
thrown; an error can only come from the underlying store machinery, never
from a mere failed match. -/
theorem c9_getUser_absent_returns_none (st : DBMState) (db : IDB) (store : IDBStore)
    (idx : IDBIndex) (u : String)
    (hdb : st.db = some db) (hp : st.initializationPromise = true)
    (hs : findStore db "users" = some store)
    (hi : store.indexes.find? (fun i => i.name = "username") = some idx)
    (habs : ∀ r ∈ store.records, getField r idx.keyPath ≠ some (.vStr u)) :
    getUser st u = (.ok none, st) := by
  have hmem : store ∈ db.stores := List.mem_of_find?_eq_some hs
  have hname : store.name = "users" := by
    have h2 := List.find?_some hs
    simpa using h2
  have htx : transactionCheck db ["users"] .readonly = .ok () := by
    unfold transactionCheck
    have hany : db.stores.any (fun s => s.name = "users") = true :=
      List.any_eq_true.mpr ⟨store, hmem, by simp [hname]⟩
    simp [hany]
  have hfind : store.records.find?
      (fun r => decide (getField r idx.keyPath = some (.vStr u))) = none := by
    apply List.find?_eq_none.mpr
    intro r hr
    simpa using habs r hr
  have hst : { st with db := some db, initializationPromise := true } = st := by
    cases st
    simp_all
  unfold getUser executeTransaction
  simp only [hdb, hp, if_true, Option.getD_some, htx]
  rw [hs]
  simp [hi, hfind, hst]

/-- Witness for `c9_getUser_absent_returns_none` at the empty created
`users` store. -/
theorem c9_witness : getUser readyState "ghost" = (.ok none, readyState) :=
  c9_getUser_absent_returns_none readyState readyDb
    (storeCreatedFromTableDef usersTableDef)
    { name := "username", keyPath := "username", unique := true } "ghost"
    rfl rfl (by decide) (by decide) (by decide)

/-! ## Claim C10 -/

/-- Claim C10: `addUser` mutates its argument in place — after a call whose
validation succeeds on a record carrying a `password` field, the caller's
own record has `password` overwritten with the hex digest of the original
value (so the plaintext is no longer reachable through the object), while
every other field of the argument is left unchanged.  The mutation happens
before the transaction, so it is observable regardless of the insert's
outcome. -/
theorem c10_addUser_mutates_argument (st : DBMState) (user : Rec) (p : String)
    (hpw : getField user "password" = some (.vStr p))
    (hv : validateData user usersInlineSchema = .ok ()) :
    getField (addUser st user).2.2 "password" = some (.vStr (hashPassword p)) ∧
    ∀ f, f ≠ "password" → getField (addUser st user).2.2 f = getField user f := by
  have hcols := validateData_ok_columns user usersInlineSchema hv
  have hpc : columnErrors user { name := "password", required := true, validation := "string" } =
      .ok [] :=
    validateColumns_ok_each user usersInlineSchema hcols _ (by simp [usersInlineSchema])
  have hpne : ¬ (p = "") := by
    intro hpe
    subst hpe
    simp [columnErrors, typeCheckErrors, isMissing, hpw] at hpc
  have htr : truthy (some (.vStr p)) = true := by simp [truthy, hpne]
  have harg : (addUser st user).2.2 = setField user "password" (.vStr (hashPassword p)) := by
    unfold addUser
    rw [hv, hpw]
    simp only [htr, if_true, jsToString]
  rw [harg]
  exact ⟨getField_setField_self user "password" _,
         fun f hf => getField_setField_ne user "password" f _ hf⟩

/-- Witness for `c10_addUser_mutates_argument` at the Scenario C record. -/
theorem c10_witness :
    getField (addUser readyState aliceRecord).2.2 "password" =
      some (.vStr (hashPassword "secret")) ∧
    ∀ f, f ≠ "password" →
      getField (addUser readyState aliceRecord).2.2 f = getField aliceRecord f :=
  c10_addUser_mutates_argument readyState aliceRecord "secret" (by decide) (by decide)

/-! ## Claim C4 -/

/-- The messages a column contributes when its check does not crash (used to
state aggregation; equal to `columnErrors` on every non-crashing column). -/
def colMsgsSafe (data : Rec) (col : ColumnRule) : List String :=
  match columnErrors data col with
  | .ok l => l
  | .error _ => []

theorem columnErrors_string_ok (data : Rec) (name : String) (req : Bool) :
    ∃ l, columnErrors data { name := name, required := req, validation := "string" } = .ok l := by
  simp only [columnErrors, typeCheckErrors]
  cases getField data name with
  | none => exact ⟨_, rfl⟩
  | some v => cases v <;> exact ⟨_, rfl⟩

theorem columnErrors_number_ok (data : Rec) (name : String) (req : Bool) :
    ∃ l, columnErrors data { name := name, required := req, validation := "number" } = .ok l := by
  simp only [columnErrors, typeCheckErrors]
  cases getField data name with
  | none => exact ⟨_, rfl⟩
  | some v => cases v <;> exact ⟨_, rfl⟩

theorem columnErrors_enum_absent_ok (data : Rec) (name : String) (req : Bool)
    (h : getField data name = none ∨ getField data name = some .vNull) :
    ∃ l, columnErrors data { name := name, required := req, validation := "enum" } = .ok l := by
  simp only [columnErrors]
  rcases h with h | h <;> rw [h] <;> exact ⟨_, rfl⟩

theorem validateColumns_eq_flatten (data : Rec) (schema : List ColumnRule)
    (h : ∀ col ∈ schema, ∃ l, columnErrors data col = .ok l) :
    validateColumns data schema = .ok ((schema.map (colMsgsSafe data)).flatten) := by
  induction schema with
  | nil => rfl
  | cons c rest ih =>
    obtain ⟨l, hl⟩ := h c (by simp)
    have hr := ih (fun col hc => h col (by simp [hc]))
    unfold validateColumns
    rw [hl, hr]
    simp [colMsgsSafe, hl]

/-- Claim C4 amended: on records that do not carry a present value for the
`gravite` column, `validateData` over the non-conformity schema collects the
violations of every column and rejects with one aggregated error joining all
of them (so `addNonConformite({poste:"P3"})` rejects naming all four missing
required columns, as Scenario B states).  The restriction is forced by the
counterexample `c4_counterexample`: a present `gravite` value makes the
enum check crash with a `TypeError` before the remaining columns are
examined, because the inline `gravite` rule carries no `options`. -/
theorem c4_collects_all_violations :
    (∀ data : Rec,
      getField data "gravite" = none ∨ getField data "gravite" = some .vNull →
      validateData data ncInlineSchema =
        (if (ncInlineSchema.map (colMsgsSafe data)).flatten = [] then .ok ()
         else .error (.jsError ("Validation échouée: " ++
           String.intercalate ", " ((ncInlineSchema.map (colMsgsSafe data)).flatten))))) ∧
    validateData scenarioBRecord ncInlineSchema =
      .error (.jsError ("Validation échouée: type_defaut est requis, gravite est requis, " ++
        "description est requis, id_declarant est requis")) := by
  constructor
  · intro data hg
    have hcols : validateColumns data ncInlineSchema =
        .ok ((ncInlineSchema.map (colMsgsSafe data)).flatten) := by
      apply validateColumns_eq_flatten
      intro col hcol
      simp only [ncInlineSchema, List.mem_cons, List.not_mem_nil, or_false] at hcol
      rcases hcol with h | h | h | h | h
      all_goals subst h
      · exact columnErrors_string_ok data "type_defaut" true
      · exact columnErrors_string_ok data "poste" true
      · exact columnErrors_enum_absent_ok data "gravite" true hg
      · exact columnErrors_string_ok data "description" true
      · exact columnErrors_number_ok data "id_declarant" true
    unfold validateData
    rw [hcols]
    cases hF : (ncInlineSchema.map (colMsgsSafe data)).flatten with
    | nil => simp
    | cons e es => simp
  · decide

/-- Witness for `c4_collects_all_violations` at the Scenario B record (whose
`gravite` field is absent). -/
theorem c4_witness :
    validateData scenarioBRecord ncInlineSchema =
      (if (ncInlineSchema.map (colMsgsSafe scenarioBRecord)).flatten = [] then .ok ()
       else .error (.jsError ("Validation échouée: " ++
         String.intercalate ", " ((ncInlineSchema.map (colMsgsSafe scenarioBRecord)).flatten)))) :=
  c4_collects_all_violations.1 scenarioBRecord (Or.inl (by decide))

/-- A record violating several columns at once (three required columns
absent) that also carries a present `gravite` value. -/
def c4Record : Rec := [("poste", .vStr "P3"), ("gravite", .vStr "Catastrophique")]

/-- Counterexample to claim C4 as stated: `c4Record` violates several
columns at once (`type_defaut`, `description` and `id_declarant` are all
missing, and `gravite` is not one of the declared options), yet validation
does not reject with an aggregated error naming them — it crashes with a
`TypeError` (the inline `gravite` rule has `validation: "enum"` but no
`options`, so `column.options.includes(value)` reads `includes` of
`undefined`), which is not a `ValidationFailed`-style `Error` at all, and
`addNonConformite` rejects with that `TypeError`. -/
theorem c4_counterexample :
    validateData c4Record ncInlineSchema =
      .error (.jsTypeError "Cannot read properties of undefined (reading includes)") ∧
    (match validateData c4Record ncInlineSchema with
     | .error (.jsError _) => False
     | _ => True) ∧
    addNonConformite readyState c4Record =
      (.error (.jsTypeError "Cannot read properties of undefined (reading includes)"),
       readyState) := by
  refine ⟨by decide, by trivial, by decide⟩

/-! ## Claim C7 -/

theorem dotSplitTail_iff (l : List Char) :
    dotSplitTail l = true ↔ ∃ b c, l = b ++ '.' :: c ∧ c ≠ [] := by
  induction l with
  | nil => simp [dotSplitTail]
  | cons x rest ih =>
    unfold dotSplitTail
    rw [Bool.or_eq_true, Bool.and_eq_true, ih]
    constructor
    · rintro (⟨hx, hne⟩ | ⟨b, c, hbc, hc⟩)
      · have hx' : x = '.' := by simpa using hx
        have hne' : rest ≠ [] := by simpa [List.isEmpty_iff] using hne
        exact ⟨[], rest, by simp [hx'], hne'⟩
      · exact ⟨x :: b, c, by simp [hbc], hc⟩
    · rintro ⟨b, c, hbc, hc⟩
      cases b with
      | nil =>
        simp only [List.nil_append, List.cons.injEq] at hbc
        obtain ⟨hx, hr⟩ := hbc
        left
        refine ⟨by simp [hx], ?_⟩
        simpa [List.isEmpty_iff, hr] using hc
      | cons y bs =>
        simp only [List.cons_append, List.cons.injEq] at hbc
        obtain ⟨hx, hr⟩ := hbc
        right
        exact ⟨bs, c, hr, hc⟩

theorem takeWhile_append_split {α : Type} (p : α → Bool) (a : List α) (x : α) (r : List α)
    (ha : ∀ y ∈ a, p y = true) (hx : p x = false) :
    (a ++ x :: r).takeWhile p = a ∧ (a ++ x :: r).dropWhile p = x :: r := by
  induction a with
  | nil => simp [List.takeWhile_cons, List.dropWhile_cons, hx]
  | cons z zs ih =>
    have hz := ha z (by simp)
    have ih' := ih (fun y hy => ha y (by simp [hy]))
    simp [List.takeWhile_cons, List.dropWhile_cons, hz, ih'.1, ih'.2]

theorem dropWhile_head_false {α : Type} (p : α → Bool) (l : List α) (x : α) (t : List α)
    (h : l.dropWhile p = x :: t) : p x = false := by
  induction l with
  | nil => simp [List.dropWhile] at h
  | cons y ys ih =>
    rw [List.dropWhile_cons] at h
    cases hpy : p y with
    | true => rw [hpy] at h; simp at h; exact ih h
    | false =>
      rw [hpy] at h
      simp only [Bool.false_eq_true, if_false, List.cons.injEq] at h
      rw [← h.1]
      exact hpy

/-- The record used to drive `validateData` on an arbitrary email value
(the other required columns hold valid values so only the email check can
fail). -/
def emailProbe (s : String) : Rec :=
  [("username", .vStr "u"), ("password", .vStr "p"), ("email", .vStr s)]

/-- Definition following the words of claim C7, for comparison with the
regex the code actually uses: the value "contains at least one `@`, at
least one `.` after the `@`, and no whitespace". -/
def claimedEmailShape (s : String) : Bool :=
  let l := s.toList
  l.any (fun c => c = '@') &&
  ((l.dropWhile (fun c => !(c = '@'))).drop 1).any (fun c => c = '.') &&
  l.all (fun c => !(isJsSpace c))

/-- Counterexample to claim C7 as stated: the value "a@b." contains an `@`,
a `.` after it, and no whitespace (it satisfies the claimed shape), yet the
code's regex rejects it — the character class after the final `.` must be
nonempty — so validation rejects the record with the email violation. -/
theorem c7_counterexample :
    claimedEmailShape "a@b." = true ∧
    emailRegexTest "a@b." = false ∧
    validateData (emailProbe "a@b.") usersInlineSchema =
      .error (.jsError "Validation échouée: email n\x27est pas un email valide") := by
  refine ⟨by decide, by decide, by decide⟩

/-- Claim C7 amended: validation admits an email value exactly when it has
the form `a@b.c` where `a`, `b`, `c` are nonempty and contain no whitespace
and no `@` (`b` and `c` may themselves contain dots).  In particular a
value with a second `@`, an empty local part, or an empty piece adjacent to
the required dot is rejected even though it may contain an `@`, a `.` after
it, and no whitespace. -/
theorem c7_email_shape_exact :
    (∀ s : String,
      emailRegexTest s = true ↔
        ∃ a b c : List Char,
          s.toList = a ++ '@' :: (b ++ '.' :: c) ∧ a ≠ [] ∧ b ≠ [] ∧ c ≠ [] ∧
          (a ++ b ++ c).all okEmailChar = true) ∧
    (∀ s : String,
      validateData (emailProbe s) usersInlineSchema = .ok () ↔ emailRegexTest s = true) := by
  constructor
  · intro s
    constructor
    · intro h
      simp only [emailRegexTest] at h
      cases hd : s.toList.dropWhile (fun c => !(c = '@')) with
      | nil => rw [hd] at h; simp at h
      | cons x t =>
        rw [hd] at h
        rw [Bool.and_eq_true, Bool.and_eq_true] at h
        obtain ⟨⟨hA, hB⟩, hC⟩ := h
        have hx : x = '@' := by
          have := dropWhile_head_false (fun c => !(c = '@')) s.toList x t hd
          simpa using this
        cases t with
        | nil => simp at hC
        | cons t0 rest =>
          rw [Bool.and_eq_true] at hC
          obtain ⟨hall, hdot⟩ := hC
          obtain ⟨b', c, hbc, hc⟩ := (dotSplitTail_iff rest).mp hdot
          refine ⟨s.toList.takeWhile (fun c => !(c = '@')), t0 :: b', c, ?_, ?_, by simp, hc, ?_⟩
          · have hsplit := List.takeWhile_append_dropWhile
              (p := fun c => !(c = '@')) (l := s.toList)
            rw [hd, hx, hbc] at hsplit
            refine hsplit.symm.trans ?_
            simp
          · simpa [List.isEmpty_iff] using hA
          · rw [hbc] at hall
            simp only [List.all_cons, List.all_append, Bool.and_eq_true] at hall ⊢
            exact ⟨⟨(List.all_eq_true.mpr fun y hy => List.all_eq_true.mp hB y hy),
                    hall.1, hall.2.1⟩, hall.2.2.2⟩
    · rintro ⟨a, b, c, hsl, hane, hbne, hcne, hall⟩
      simp only [List.all_append, Bool.and_eq_true] at hall
      obtain ⟨⟨haok, hbok⟩, hcok⟩ := hall
      have hnoAt : ∀ y ∈ a, (fun ch => !(ch = '@')) y = true := by
        intro y hy
        have := List.all_eq_true.mp haok y hy
        simp only [okEmailChar, Bool.and_eq_true] at this
        simpa using this.2
      have htw := takeWhile_append_split (fun ch => !(ch = '@')) a '@' (b ++ '.' :: c)
        hnoAt (by simp)
      simp only [emailRegexTest]
      rw [hsl, htw.2, htw.1]
      cases b with
      | nil => exact absurd rfl hbne
      | cons b0 bs =>
        have hdot : dotSplitTail (bs ++ '.' :: c) = true :=
          (dotSplitTail_iff (bs ++ '.' :: c)).mpr ⟨bs, c, rfl, hcne⟩
        have hbok' := List.all_eq_true.mp hbok
        simp only [List.cons_append, List.all_cons, List.all_append, Bool.and_eq_true,
          List.isEmpty_iff]
        refine ⟨⟨by simpa [List.isEmpty_iff] using hane, List.all_eq_true.mpr ?_⟩,
                ⟨⟨hbok' b0 (by simp), List.all_eq_true.mpr ?_, by decide, ?_⟩, hdot⟩⟩
        · intro y hy; exact List.all_eq_true.mp haok y hy
        · intro y hy; exact hbok' y (by simp [hy])
        · exact hcok
  · intro s
    cases h : emailRegexTest s with
    | true =>
      simp [validateData, validateColumns, columnErrors, typeCheckErrors, emailProbe,
        usersInlineSchema, getField, isMissing, jsToString, h]
    | false =>
      simp [validateData, validateColumns, columnErrors, typeCheckErrors, emailProbe,
        usersInlineSchema, getField, isMissing, jsToString, h]

end QTrack
